import Mathlib

/-!
Verification of the sign-pay Gin middleware (`server/go/sign-pay.go`).

The middleware is a single synchronous request decorator.  We embed it as a
pure function `runGate` over an explicit request model; the facilitator
client and the base64 payload codec (external library code configured by the
middleware, not implemented in this repository) are abstracted as an
environment of oracle functions.  The result records the HTTP outcome, the
trace of outbound facilitator calls, and the state of the (restored) request
body stream, so that ordering and round-trip properties can be stated.

Go specifics kept faithfully:
  * `c.GetHeader` returns `""` for an absent header, so a missing and an
    empty `X-PAYMENT` header are the same value (a `String` field);
  * failed type assertions (`x.(string)`, `nil.(*PaymentData)`) panic; a
    panic is a distinct terminal outcome;
  * a `nil` body, an empty body and a body-stream read error are three
    distinct states of `c.Request.Body`;
  * `json.RawMessage` body bytes are modelled as `List Nat`.
-/

namespace SignPay

/-- State of the request body stream (`c.Request.Body`): `nil`, readable
bytes, or a stream whose read errors (`io.ReadAll` fails). -/
inductive BodyState where
  | noBody
  | bytes (bs : List Nat)
  | readError
deriving DecidableEq, Repr

/-- A value stored in the Gin context under `"signpay:amount"`.  Gin context
values are `interface\x7b\x7d`; the middleware type-asserts `.(string)`, so we only
distinguish string values from values of any other dynamic type. -/
inductive CtxVal where
  | str (s : String)
  | nonStr
deriving DecidableEq, Repr

/-- `types.PaymentPayload`: the decoded client payment authorization.  The
inner authorization record is opaque to the middleware and modelled as a
single string. -/
structure PaymentPayload where
  x402Version : Nat
  scheme : String
  network : String
  authorization : String
deriving DecidableEq, Repr

/-- `types.PaymentRequirements` as constructed by the middleware (the `Extra`
field is always `nil` and omitted). -/
structure PaymentRequirements where
  scheme : String
  network : String
  maxAmountRequired : String
  resource : String
  description : String
  payTo : String
  asset : String
  maxTimeoutSeconds : Nat
deriving DecidableEq, Repr

/-- `types.VerifyResponse`: validity flag plus optional rejection reason. -/
structure VerifyResponse where
  isValid : Bool
  invalidReason : Option String
deriving DecidableEq, Repr

/-- `types.SettleResponse`: success flag, optional error reason, transaction id. -/
structure SettleResponse where
  success : Bool
  errorReason : Option String
  transaction : String
deriving DecidableEq, Repr

/-- `PaymentData`: the aggregate stored in the Gin context for handlers. -/
structure PaymentData where
  paymentPayload : PaymentPayload
  settleResponse : SettleResponse
  paymentRequirements : PaymentRequirements
  verifyResponse : VerifyResponse
  requestBody : List Nat
deriving DecidableEq, Repr

/-- The JSON body of an abort response (`gin.H`): the `error` string, the
optional `accepts` echo of the requirements, and the optional
`x402Version` field (the body-read failure response omits it). -/
structure RespBody where
  error : String
  accepts : Option (List PaymentRequirements)
  x402Version : Option Nat
deriving DecidableEq, Repr

/-- Terminal outcome of one middleware invocation: an aborted response
(`c.AbortWithStatusJSON`), the success path (`c.Set` of the payment data,
the optional `X-PAYMENT-RESPONSE` header, then exactly one `c.Next()`), or
a Go runtime panic from a failed type assertion. -/
inductive Outcome where
  | response (status : Nat) (body : RespBody)
  | success (paymentResponseHeader : Option String) (data : PaymentData)
  | panicked
deriving DecidableEq, Repr

/-- An outbound facilitator call, with its arguments. -/
inductive CallEvent where
  | verifyCall (p : PaymentPayload) (r : PaymentRequirements)
  | settleCall (p : PaymentPayload) (r : PaymentRequirements)
deriving DecidableEq, Repr

/-- Full result of one invocation: the outcome, the ordered trace of
facilitator calls, and the state `c.Request.Body` is left in. -/
structure StepResult where
  outcome : Outcome
  calls : List CallEvent
  restoredBody : BodyState
deriving DecidableEq, Repr

/-- The parts of the inbound Gin request/context the middleware reads. -/
structure Request where
  body : BodyState
  tls : Bool
  host : String
  path : String
  xPaymentHeader : String
  amountOverride : Option CtxVal
deriving DecidableEq, Repr

/-- External collaborators: the base64 payload decoder
(`types.DecodePaymentPayloadFromBase64`), the facilitator client's
`Verify` and `Settle`, and `SettleResponse.EncodeToBase64String`.
These live outside this repository; each is an arbitrary function
returning a result or a Go `error`. -/
structure Env where
  decode : String → Except String PaymentPayload
  verify : PaymentPayload → PaymentRequirements → Except String VerifyResponse
  settle : PaymentPayload → PaymentRequirements → Except String SettleResponse
  encodeSettle : SettleResponse → Except String String

/-- The per-request handler closure produced by `SignPayMiddleware`:
the resolved network name plus the captured configuration
(`options.Resource` is `""` when not configured, as in Go). -/
structure Gate where
  network : String
  tokenAddress : String
  tokenAmount : String
  recipientAddress : String
  resource : String
deriving DecidableEq, Repr

/-- The protocol version constant `x402Version = 1`. -/
def x402Version : Nat := 1

/-- The `chainIDToNetwork` map. -/
def chainIDToNetwork (chainId : Int) : Option String :=
  if chainId = 1 then some "ethereum"
  else if chainId = 11155111 then some "sepolia"
  else if chainId = 8453 then some "base"
  else if chainId = 84532 then some "base-sepolia"
  else if chainId = 10 then some "optimism"
  else if chainId = 11155420 then some "optimism-sepolia"
  else if chainId = 42161 then some "arbitrum"
  else if chainId = 421614 then some "arbitrum-sepolia"
  else if chainId = 137 then some "polygon"
  else if chainId = 80002 then some "polygon-amoy"
  else if chainId = 43114 then some "avalanche"
  else if chainId = 43113 then some "avalanche-fuji"
  else if chainId = 59144 then some "linea"
  else if chainId = 59141 then some "linea-sepolia"
  else if chainId = 324 then some "zksync"
  else if chainId = 300 then some "zksync-sepolia"
  else none

/-- Construction-time part of `SignPayMiddleware`: resolve the chain ID and
capture the configuration.  `none` models the `panic` on an unknown chain
ID (the facilitator URL and API key only configure the client abstracted
by `Env` and are not recorded). -/
def SignPayMiddleware (chainId : Int) (tokenAddress tokenAmount recipientAddress : String)
    (resource : String) : Option Gate :=
  match chainIDToNetwork chainId with
  | none => none
  | some network =>
    some { network := network, tokenAddress := tokenAddress, tokenAmount := tokenAmount,
           recipientAddress := recipientAddress, resource := resource }

/-- Resource URL resolution: the configured override when non-empty, else
`scheme://host/path` derived from the request. -/
def resourceURLOf (resource : String) (req : Request) : String :=
  if resource ≠ "" then resource
  else (if req.tls then "https" else "http") ++ "://" ++ req.host ++ req.path

/-- Amount resolution: the `"signpay:amount"` context value overrides the
configured amount when present; a present non-string value makes the
`.(string)` type assertion panic (`none`). -/
def resolveAmount (tokenAmount : String) (ov : Option CtxVal) : Option String :=
  match ov with
  | some (CtxVal.str s) => some s
  | some CtxVal.nonStr => none
  | none => some tokenAmount

/-- The `PaymentRequirements` value the middleware assembles. -/
def mkRequirements (network amount resourceURL recipientAddress tokenAddress : String) :
    PaymentRequirements :=
  { scheme := "exact", network := network, maxAmountRequired := amount,
    resource := resourceURL, description := "Payment for purchase",
    payTo := recipientAddress, asset := tokenAddress, maxTimeoutSeconds := 300 }

/-- `paymentPayload.X402Version = x402Version` after decoding. -/
def stampVersion (p : PaymentPayload) : PaymentPayload :=
  { p with x402Version := x402Version }

/-- The bytes `io.ReadAll` captured (empty for a `nil` or empty body). -/
def capturedBody : BodyState → List Nat
  | BodyState.bytes bs => bs
  | _ => []

/-- The 500 error message for a missing amount configuration. -/
def amountNotConfiguredMsg : String :=
  "Payment amount not configured. Set amount parameter or use c.Set(\"signpay:amount\", amount) in preceding middleware."

/-- Verify/settle orchestration (source lines 216-280): the two facilitator
calls in order, their error mapping, the best-effort response header, and
the context population on success. -/
def runVerifySettle (env : Env) (p : PaymentPayload) (pr : PaymentRequirements)
    (requestBody : List Nat) (restored : BodyState) : StepResult :=
  match env.verify p pr with
  | Except.error e =>
    { outcome := Outcome.response 500
        { error := "Payment verification failed: " ++ e, accepts := none,
          x402Version := some x402Version },
      calls := [CallEvent.verifyCall p pr], restoredBody := restored }
  | Except.ok v =>
    if !v.isValid then
      { outcome := Outcome.response 402
          { error := "Payment verification failed: " ++
              v.invalidReason.getD "unknown reason",
            accepts := some [pr], x402Version := some x402Version },
        calls := [CallEvent.verifyCall p pr], restoredBody := restored }
    else
      match env.settle p pr with
      | Except.error e =>
        { outcome := Outcome.response 500
            { error := "Payment settlement failed: " ++ e, accepts := none,
              x402Version := some x402Version },
          calls := [CallEvent.verifyCall p pr, CallEvent.settleCall p pr],
          restoredBody := restored }
      | Except.ok s =>
        if !s.success then
          { outcome := Outcome.response 402
              { error := "Payment settlement failed: " ++
                  s.errorReason.getD "Settlement was not successful",
                accepts := some [pr], x402Version := some x402Version },
            calls := [CallEvent.verifyCall p pr, CallEvent.settleCall p pr],
            restoredBody := restored }
        else
          { outcome := Outcome.success
              (match env.encodeSettle s with
               | Except.ok h => some h
               | Except.error _ => none)
              { paymentPayload := p, settleResponse := s,
                paymentRequirements := pr, verifyResponse := v,
                requestBody := requestBody },
            calls := [CallEvent.verifyCall p pr, CallEvent.settleCall p pr],
            restoredBody := restored }

/-- The handler after the body-capture step: requirements construction,
header extraction, decode, then the verify/settle stage —
in the source's order, each failure aborting immediately. -/
def runGateAfterBody (gate : Gate) (env : Env) (req : Request)
    (requestBody : List Nat) (restored : BodyState) : StepResult :=
  match resolveAmount gate.tokenAmount req.amountOverride with
  | none => { outcome := Outcome.panicked, calls := [], restoredBody := restored }
  | some amount =>
    if amount = "" then
      { outcome := Outcome.response 500
          { error := amountNotConfiguredMsg, accepts := none, x402Version := some x402Version },
        calls := [], restoredBody := restored }
    else
      if req.xPaymentHeader = "" then
        { outcome := Outcome.response 402
            { error := "X-PAYMENT header is required",
              accepts := some [mkRequirements gate.network amount
                (resourceURLOf gate.resource req) gate.recipientAddress gate.tokenAddress],
              x402Version := some x402Version },
          calls := [], restoredBody := restored }
      else
        match env.decode req.xPaymentHeader with
        | Except.error e =>
          { outcome := Outcome.response 400
              { error := "Invalid payment payload: " ++ e, accepts := none,
                x402Version := some x402Version },
            calls := [], restoredBody := restored }
        | Except.ok p0 =>
          runVerifySettle env (stampVersion p0)
            (mkRequirements gate.network amount (resourceURLOf gate.resource req)
              gate.recipientAddress gate.tokenAddress)
            requestBody restored

/-- One invocation of the per-request handler: body capture/restore first
(a read error aborts with 400 and no `x402Version` field in the body),
then the rest of the pipeline. -/
def runGate (gate : Gate) (env : Env) (req : Request) : StepResult :=
  match req.body with
  | BodyState.readError =>
    { outcome := Outcome.response 400
        { error := "Failed to read request body", accepts := none, x402Version := none },
      calls := [], restoredBody := BodyState.readError }
  | BodyState.noBody => runGateAfterBody gate env req [] BodyState.noBody
  | BodyState.bytes bs => runGateAfterBody gate env req bs (BodyState.bytes bs)

/-- Result of `GetPaymentData`: the data, or a Go runtime panic. -/
inductive GetResult where
  | ok (d : PaymentData)
  | panics
deriving DecidableEq, Repr

/-- `GetPaymentData`: `data, _ := c.Get(PaymentDataKey); return data.(*PaymentData)`.
When the key is unset, `c.Get` yields a nil `interface\x7b\x7d` and the type
assertion panics (Go semantics of asserting on a nil interface value). -/
def GetPaymentData (ctx : Option PaymentData) : GetResult :=
  match ctx with
  | none => GetResult.panics
  | some d => GetResult.ok d

/-- Every `PaymentRequirements` value observable from a result: the one in
the stored payment data, the `accepts` echo of an abort body, and the
arguments of facilitator calls. -/
def requirementsOf (r : StepResult) : List PaymentRequirements :=
  (match r.outcome with
   | Outcome.success _ d => [d.paymentRequirements]
   | Outcome.response _ b => b.accepts.getD []
   | Outcome.panicked => []) ++
  r.calls.map (fun c => match c with
   | CallEvent.verifyCall _ pr => pr
   | CallEvent.settleCall _ pr => pr)

/-- Sample valid verify response. -/
def sampleVerifyOk : VerifyResponse := { isValid := true, invalidReason := none }

/-- Sample successful settle response. -/
def sampleSettleOk : SettleResponse :=
  { success := true, errorReason := none, transaction := "0xabc" }

/-- Sample decoded payload. -/
def samplePayload : PaymentPayload :=
  { x402Version := 0, scheme := "exact", network := "base-sepolia", authorization := "sig" }

/-- Sample environment on which every external call succeeds. -/
def sampleEnv : Env :=
  { decode := fun _ => Except.ok samplePayload,
    verify := fun _ _ => Except.ok sampleVerifyOk,
    settle := fun _ _ => Except.ok sampleSettleOk,
    encodeSettle := fun _ => Except.ok "encoded" }

/-- Sample environment whose payload decoding fails. -/
def sampleEnvDecodeErr : Env :=
  { sampleEnv with decode := fun _ => Except.error "illegal base64 data" }

/-- Sample environment whose verify call reports the payment invalid. -/
def sampleEnvInvalid : Env :=
  { sampleEnv with
    verify := fun _ _ =>
      Except.ok { isValid := false, invalidReason := some "insufficient_funds" } }

/-- Sample gate configuration (chain 84532, no resource override). -/
def sampleGate : Gate :=
  { network := "base-sepolia", tokenAddress := "0xToken", tokenAmount := "1000000",
    recipientAddress := "0xRecipient", resource := "" }

/-- Sample request carrying a payment header and a two-byte body. -/
def sampleReq : Request :=
  { body := BodyState.bytes [123, 125], tls := false, host := "example.com",
    path := "/buy", xPaymentHeader := "cGF5", amountOverride := none }

/-- Sample request with the payment header absent. -/
def sampleReqNoHeader : Request := { sampleReq with xPaymentHeader := "" }

/-- Sample request with a string dynamic-amount override. -/
def sampleReqOverride : Request :=
  { sampleReq with amountOverride := some (CtxVal.str "500") }

/-- Sample request whose override value is not a string. -/
def sampleReqNonStr : Request := { sampleReq with amountOverride := some CtxVal.nonStr }

/-- Sample request whose override value is the empty string. -/
def sampleReqEmptyOverride : Request :=
  { sampleReq with amountOverride := some (CtxVal.str "") }

/-- Sample request whose body stream read errors. -/
def sampleReqBadBody : Request := { sampleReq with body := BodyState.readError }

/-- The requirements the sample gate builds for the sample request. -/
def samplePr : PaymentRequirements :=
  mkRequirements "base-sepolia" "1000000" "http://example.com/buy" "0xRecipient" "0xToken"

/-- Every requirements value `runVerifySettle` exposes is its `pr` argument
(shared helper). -/
theorem runVerifySettle_requirements (env : Env) (p : PaymentPayload)
    (pr : PaymentRequirements) (requestBody : List Nat) (restored : BodyState) :
    ∀ R ∈ requirementsOf (runVerifySettle env p pr requestBody restored), R = pr := by
  intro R hR
  unfold runVerifySettle at hR
  split at hR
  · simp [requirementsOf] at hR
    exact hR
  · split at hR
    · simp [requirementsOf] at hR
      tauto
    · split at hR
      · simp [requirementsOf] at hR
        tauto
      · split at hR
        · simp [requirementsOf] at hR
          tauto
        · simp [requirementsOf] at hR
          tauto

/-- Every requirements value `runGateAfterBody` exposes is the one built from
the resolved amount and resource URL (shared helper). -/
theorem runGateAfterBody_requirements (gate : Gate) (env : Env) (req : Request)
    (requestBody : List Nat) (restored : BodyState) :
    ∀ R ∈ requirementsOf (runGateAfterBody gate env req requestBody restored),
      R = mkRequirements gate.network
            ((resolveAmount gate.tokenAmount req.amountOverride).getD "")
            (resourceURLOf gate.resource req) gate.recipientAddress gate.tokenAddress := by
  intro R hR
  unfold runGateAfterBody at hR
  split at hR
  · simp [requirementsOf] at hR
  · rename_i amount heq
    rw [heq, Option.getD_some]
    split at hR
    · simp [requirementsOf] at hR
    · split at hR
      · simp [requirementsOf] at hR
        exact hR
      · split at hR
        · simp [requirementsOf] at hR
        · exact runVerifySettle_requirements env _ _ _ _ R hR

/-- Lift of the helper to `runGate` (shared helper). -/
theorem runGate_requirements (gate : Gate) (env : Env) (req : Request) :
    ∀ R ∈ requirementsOf (runGate gate env req),
      R = mkRequirements gate.network
            ((resolveAmount gate.tokenAmount req.amountOverride).getD "")
            (resourceURLOf gate.resource req) gate.recipientAddress gate.tokenAddress := by
  intro R hR
  unfold runGate at hR
  split at hR
  · simp [requirementsOf] at hR
  · exact runGateAfterBody_requirements gate env req _ _ R hR
  · exact runGateAfterBody_requirements gate env req _ _ R hR

/-- When the body read does not error, `runGate` is the post-body pipeline on
the captured bytes, and the body stream is restored to its own bytes
(shared helper). -/
theorem runGate_eq_afterBody (gate : Gate) (env : Env) (req : Request)
    (hb : req.body ≠ BodyState.readError) :
    runGate gate env req = runGateAfterBody gate env req (capturedBody req.body) req.body := by
  unfold runGate
  cases h : req.body <;> simp_all [capturedBody]

/-- Claim C3: a request whose `X-PAYMENT` header is absent or empty (one
value in Gin), reaching the header check (body read ok, amount resolved
non-empty), is answered with 402, an `accepts` echo holding exactly the
constructed requirements with the resolved amount, and `x402Version` 1;
no facilitator call is made and the downstream handler never runs. -/
theorem missing_payment_header_402 (gate : Gate) (env : Env) (req : Request) (a : String)
    (hb : req.body ≠ BodyState.readError)
    (ha : resolveAmount gate.tokenAmount req.amountOverride = some a)
    (hne : a ≠ "")
    (hh : req.xPaymentHeader = "") :
    (runGate gate env req).outcome = Outcome.response 402
      { error := "X-PAYMENT header is required",
        accepts := some [mkRequirements gate.network a (resourceURLOf gate.resource req)
          gate.recipientAddress gate.tokenAddress],
        x402Version := some 1 } ∧
    (runGate gate env req).calls = [] := by
  rw [runGate_eq_afterBody gate env req hb]
  unfold runGateAfterBody
  rw [ha]
  simp [hne, hh, x402Version]

/-- Claim C5: a non-empty `X-PAYMENT` header that fails base64 decoding or
structural parsing is answered with 400 (not 402), the error body
carrying the underlying decode error message; no facilitator call is
made and the downstream handler never runs. -/
theorem malformed_payload_400 (gate : Gate) (env : Env) (req : Request) (a e : String)
    (hb : req.body ≠ BodyState.readError)
    (ha : resolveAmount gate.tokenAmount req.amountOverride = some a)
    (hne : a ≠ "")
    (hh : req.xPaymentHeader ≠ "")
    (hd : env.decode req.xPaymentHeader = Except.error e) :
    (runGate gate env req).outcome = Outcome.response 400
      { error := "Invalid payment payload: " ++ e, accepts := none,
        x402Version := some 1 } ∧
    (runGate gate env req).calls = [] := by
  rw [runGate_eq_afterBody gate env req hb]
  unfold runGateAfterBody
  rw [ha]
  simp [hne, hh, hd, x402Version]

/-- Claim C6: when verify returns without transport error but `IsValid`
false, the response is 402 with the facilitator's `InvalidReason` when
given and the literal `"unknown reason"` otherwise, plus the same
`accepts` echo of the constructed requirements as the missing-header
response. -/
theorem verify_invalid_402 (gate : Gate) (env : Env) (req : Request) (a : String)
    (p0 : PaymentPayload) (v : VerifyResponse)
    (hb : req.body ≠ BodyState.readError)
    (ha : resolveAmount gate.tokenAmount req.amountOverride = some a)
    (hne : a ≠ "")
    (hh : req.xPaymentHeader ≠ "")
    (hd : env.decode req.xPaymentHeader = Except.ok p0)
    (hv : env.verify (stampVersion p0)
        (mkRequirements gate.network a (resourceURLOf gate.resource req)
          gate.recipientAddress gate.tokenAddress) = Except.ok v)
    (hiv : v.isValid = false) :
    (∀ rsn, v.invalidReason = some rsn →
      (runGate gate env req).outcome = Outcome.response 402
        { error := "Payment verification failed: " ++ rsn,
          accepts := some [mkRequirements gate.network a (resourceURLOf gate.resource req)
            gate.recipientAddress gate.tokenAddress],
          x402Version := some 1 }) ∧
    (v.invalidReason = none →
      (runGate gate env req).outcome = Outcome.response 402
        { error := "Payment verification failed: " ++ "unknown reason",
          accepts := some [mkRequirements gate.network a (resourceURLOf gate.resource req)
            gate.recipientAddress gate.tokenAddress],
          x402Version := some 1 }) := by
  rw [runGate_eq_afterBody gate env req hb]
  unfold runGateAfterBody
  rw [ha]
  simp only [hne, hh, hd, if_false, if_neg, ite_false]
  constructor
  · intro rsn hrsn
    unfold runVerifySettle
    rw [hv]
    simp [hiv, hrsn, x402Version]
  · intro hrsn
    unfold runVerifySettle
    rw [hv]
    simp [hiv, hrsn, x402Version]

/-- `runVerifySettle` leaves the body stream untouched (shared helper). -/
theorem runVerifySettle_restoredBody (env : Env) (p : PaymentPayload)
    (pr : PaymentRequirements) (rb : List Nat) (restored : BodyState) :
    (runVerifySettle env p pr rb restored).restoredBody = restored := by
  unfold runVerifySettle
  repeat' split
  all_goals rfl

/-- `runGateAfterBody` leaves the body stream untouched (shared helper). -/
theorem runGateAfterBody_restoredBody (gate : Gate) (env : Env) (req : Request)
    (rb : List Nat) (restored : BodyState) :
    (runGateAfterBody gate env req rb restored).restoredBody = restored := by
  unfold runGateAfterBody
  repeat' split
  all_goals first
    | rfl
    | apply runVerifySettle_restoredBody

/-- Every call `runVerifySettle` makes carries its own arguments
(shared helper). -/
theorem runVerifySettle_call_args (env : Env) (p : PaymentPayload)
    (pr : PaymentRequirements) (rb : List Nat) (restored : BodyState) :
    ∀ c ∈ (runVerifySettle env p pr rb restored).calls,
      c = CallEvent.verifyCall p pr ∨ c = CallEvent.settleCall p pr := by
  unfold runVerifySettle
  repeat' split
  all_goals simp

/-- The call trace of `runVerifySettle` is either verify only — with no
settle call — or verify then settle, and the latter only when verify
returned a valid result (shared helper). -/
theorem runVerifySettle_calls (env : Env) (p : PaymentPayload)
    (pr : PaymentRequirements) (rb : List Nat) (restored : BodyState) :
    ((runVerifySettle env p pr rb restored).calls = [CallEvent.verifyCall p pr] ∧
      ∀ q qr, CallEvent.settleCall q qr ∉ (runVerifySettle env p pr rb restored).calls) ∨
    ((runVerifySettle env p pr rb restored).calls =
        [CallEvent.verifyCall p pr, CallEvent.settleCall p pr] ∧
      ∃ v, env.verify p pr = Except.ok v ∧ v.isValid = true) := by
  unfold runVerifySettle
  split
  · left
    simp
  · rename_i v hv
    split
    · left
      simp
    · rename_i hvalid
      right
      refine ⟨?_, v, hv, by simpa using hvalid⟩
      split
      · rfl
      · split <;> rfl

/-- A verify transport error yields the 500 response, after the verify call
only (shared helper). -/
theorem runVerifySettle_verify_error (env : Env) (p : PaymentPayload)
    (pr : PaymentRequirements) (rb : List Nat) (restored : BodyState) (e : String)
    (hv : env.verify p pr = Except.error e) :
    runVerifySettle env p pr rb restored =
      { outcome := Outcome.response 500
          { error := "Payment verification failed: " ++ e, accepts := none,
            x402Version := some x402Version },
        calls := [CallEvent.verifyCall p pr], restoredBody := restored } := by
  unfold runVerifySettle
  rw [hv]

/-- An invalid verify result yields the 402 response, after the verify call
only (shared helper). -/
theorem runVerifySettle_invalid (env : Env) (p : PaymentPayload)
    (pr : PaymentRequirements) (rb : List Nat) (restored : BodyState) (v : VerifyResponse)
    (hv : env.verify p pr = Except.ok v) (hvalid : v.isValid = false) :
    runVerifySettle env p pr rb restored =
      { outcome := Outcome.response 402
          { error := "Payment verification failed: " ++ v.invalidReason.getD "unknown reason",
            accepts := some [pr], x402Version := some x402Version },
        calls := [CallEvent.verifyCall p pr], restoredBody := restored } := by
  unfold runVerifySettle
  rw [hv]
  simp [hvalid]

/-- A valid verify result followed by a successful settle result yields the
success outcome with exactly the aggregated payment data (shared helper). -/
theorem runVerifySettle_success_mk (env : Env) (p : PaymentPayload)
    (pr : PaymentRequirements) (rb : List Nat) (restored : BodyState)
    (v : VerifyResponse) (s : SettleResponse)
    (hv : env.verify p pr = Except.ok v) (hvalid : v.isValid = true)
    (hs : env.settle p pr = Except.ok s) (hsucc : s.success = true) :
    runVerifySettle env p pr rb restored =
      { outcome := Outcome.success
          (match env.encodeSettle s with
           | Except.ok h => some h
           | Except.error _ => none)
          { paymentPayload := p, settleResponse := s, paymentRequirements := pr,
            verifyResponse := v, requestBody := rb },
        calls := [CallEvent.verifyCall p pr, CallEvent.settleCall p pr],
        restoredBody := restored } := by
  unfold runVerifySettle
  rw [hv]
  simp only [hvalid, Bool.not_true, Bool.false_eq_true, if_false]
  rw [hs]
  simp [hsucc]

/-- On a success outcome of `runVerifySettle` the stored data is the payload,
the requirements, the two facilitator responses (valid and successful),
and the captured bytes, and both calls were made (shared helper). -/
theorem runVerifySettle_success_data (env : Env) (p : PaymentPayload)
    (pr : PaymentRequirements) (rb : List Nat) (restored : BodyState)
    (h : Option String) (d : PaymentData)
    (hd : (runVerifySettle env p pr rb restored).outcome = Outcome.success h d) :
    env.verify p pr = Except.ok d.verifyResponse ∧ d.verifyResponse.isValid = true ∧
    env.settle p pr = Except.ok d.settleResponse ∧ d.settleResponse.success = true ∧
    d.paymentPayload = p ∧ d.paymentRequirements = pr ∧ d.requestBody = rb ∧
    (runVerifySettle env p pr rb restored).calls =
      [CallEvent.verifyCall p pr, CallEvent.settleCall p pr] := by
  unfold runVerifySettle at hd ⊢
  split at hd
  · simp at hd
  · rename_i v hv
    split at hd
    · simp at hd
    · rename_i hvalid
      split at hd
      · simp at hd
      · rename_i s hs
        split at hd
        · simp at hd
        · rename_i hsucc
          simp only [Outcome.success.injEq] at hd
          obtain ⟨_, hdd⟩ := hd
          subst hdd
          refine ⟨hv, by simpa using hvalid, hs, by simpa using hsucc, rfl, rfl, rfl, ?_⟩
          simp [hv, hvalid, hs, hsucc]

/-- Either `runGateAfterBody` aborts before the facilitator stage — no calls
and no success — or it runs the verify/settle stage on the stamped decoded
payload and the constructed requirements (shared helper). -/
theorem runGateAfterBody_cases (gate : Gate) (env : Env) (req : Request)
    (rb : List Nat) (restored : BodyState) :
    ((runGateAfterBody gate env req rb restored).calls = [] ∧
      ∀ h d, (runGateAfterBody gate env req rb restored).outcome ≠ Outcome.success h d) ∨
    (∃ amount p0,
      resolveAmount gate.tokenAmount req.amountOverride = some amount ∧ amount ≠ "" ∧
      req.xPaymentHeader ≠ "" ∧ env.decode req.xPaymentHeader = Except.ok p0 ∧
      runGateAfterBody gate env req rb restored =
        runVerifySettle env (stampVersion p0)
          (mkRequirements gate.network amount (resourceURLOf gate.resource req)
            gate.recipientAddress gate.tokenAddress) rb restored) := by
  unfold runGateAfterBody
  split
  · left
    simp
  · rename_i amount heq
    split
    · left
      simp
    · rename_i hne
      split
      · left
        simp
      · rename_i hh
        split
        · left
          simp
        · rename_i p0 hd
          right
          exact ⟨amount, p0, heq, hne, hh, hd, rfl⟩

/-- Either `runGate` aborts before the facilitator stage, or it reached the
verify/settle stage on the stamped payload, the constructed requirements
and the captured body bytes (shared helper). -/
theorem runGate_cases (gate : Gate) (env : Env) (req : Request) :
    ((runGate gate env req).calls = [] ∧
      ∀ h d, (runGate gate env req).outcome ≠ Outcome.success h d) ∨
    (∃ amount p0,
      resolveAmount gate.tokenAmount req.amountOverride = some amount ∧ amount ≠ "" ∧
      req.xPaymentHeader ≠ "" ∧ env.decode req.xPaymentHeader = Except.ok p0 ∧
      runGate gate env req =
        runVerifySettle env (stampVersion p0)
          (mkRequirements gate.network amount (resourceURLOf gate.resource req)
            gate.recipientAddress gate.tokenAddress) (capturedBody req.body) req.body) := by
  by_cases hb : req.body = BodyState.readError
  · left
    unfold runGate
    rw [hb]
    simp
  · rw [runGate_eq_afterBody gate env req hb]
    exact runGateAfterBody_cases gate env req (capturedBody req.body) req.body

/-- Claim C1: payment data is stored — and the downstream handler runs —
exactly when a verify call returned valid and a settle call returned
successful; and the stored value aggregates the stamped decoded payload,
the two facilitator responses, the constructed requirements and the
captured body bytes. -/
theorem payment_data_iff_verify_and_settle (gate : Gate) (env : Env) (req : Request) :
    ((∃ h d, (runGate gate env req).outcome = Outcome.success h d) ↔
      (∃ p pr v s, CallEvent.verifyCall p pr ∈ (runGate gate env req).calls ∧
        env.verify p pr = Except.ok v ∧ v.isValid = true ∧
        CallEvent.settleCall p pr ∈ (runGate gate env req).calls ∧
        env.settle p pr = Except.ok s ∧ s.success = true)) ∧
    (∀ h d, (runGate gate env req).outcome = Outcome.success h d →
      env.verify d.paymentPayload d.paymentRequirements = Except.ok d.verifyResponse ∧
      d.verifyResponse.isValid = true ∧
      env.settle d.paymentPayload d.paymentRequirements = Except.ok d.settleResponse ∧
      d.settleResponse.success = true ∧
      (∃ p0, env.decode req.xPaymentHeader = Except.ok p0 ∧
        d.paymentPayload = stampVersion p0) ∧
      (∃ a, resolveAmount gate.tokenAmount req.amountOverride = some a ∧ a ≠ "" ∧
        d.paymentRequirements = mkRequirements gate.network a
          (resourceURLOf gate.resource req) gate.recipientAddress gate.tokenAddress) ∧
      d.requestBody = capturedBody req.body) := by
  rcases runGate_cases gate env req with ⟨hcalls, hnosucc⟩ |
    ⟨amount, p0, ha, hne, hh, hdec, heq⟩
  · constructor
    · constructor
      · rintro ⟨h, d, hd⟩
        exact absurd hd (hnosucc h d)
      · rintro ⟨p, pr, v, s, hmem, _⟩
        rw [hcalls] at hmem
        simp at hmem
    · intro h d hd
      exact absurd hd (hnosucc h d)
  · rw [heq]
    constructor
    · constructor
      · rintro ⟨h, d, hd⟩
        obtain ⟨hv, hvalid, hs, hsucc, hp, hpr, _, hc⟩ :=
          runVerifySettle_success_data env _ _ _ _ h d hd
        refine ⟨stampVersion p0,
          mkRequirements gate.network amount (resourceURLOf gate.resource req)
            gate.recipientAddress gate.tokenAddress,
          d.verifyResponse, d.settleResponse, ?_, hv, hvalid, ?_, hs, hsucc⟩
        · rw [hc]
          simp
        · rw [hc]
          simp
      · rintro ⟨p, pr, v, s, hmemv, hv, hvalid, hmems, hs, hsucc⟩
        have hargs := runVerifySettle_call_args env (stampVersion p0)
          (mkRequirements gate.network amount (resourceURLOf gate.resource req)
            gate.recipientAddress gate.tokenAddress) (capturedBody req.body) req.body
          _ hmemv
        have hpq : p = stampVersion p0 ∧
            pr = mkRequirements gate.network amount (resourceURLOf gate.resource req)
              gate.recipientAddress gate.tokenAddress := by
          rcases hargs with h1 | h1 <;> simp_all
        obtain ⟨hp, hpr⟩ := hpq
        subst hp
        subst hpr
        rw [runVerifySettle_success_mk env _ _ _ _ v s hv hvalid hs hsucc]
        exact ⟨_, _, rfl⟩
    · intro h d hd
      obtain ⟨hv, hvalid, hs, hsucc, hp, hpr, hbody, _⟩ :=
        runVerifySettle_success_data env _ _ _ _ h d hd
      rw [hp, hpr]
      exact ⟨hv, hvalid, hs, hsucc, ⟨p0, hdec, rfl⟩, ⟨amount, ha, hne, rfl⟩, hbody⟩

/-- Claim C2: a settle call only ever happens after a verify call on the same
payload and requirements returned without error and with `IsValid` true;
when verify errors the request aborts with 500, and when verify reports
invalid it aborts with 402 — in both cases with no settle call. -/
theorem settle_only_after_valid_verify (gate : Gate) (env : Env) (req : Request) :
    (∀ p pr, CallEvent.settleCall p pr ∈ (runGate gate env req).calls →
      ∃ v, env.verify p pr = Except.ok v ∧ v.isValid = true ∧
        (runGate gate env req).calls =
          [CallEvent.verifyCall p pr, CallEvent.settleCall p pr]) ∧
    (∀ p pr e, CallEvent.verifyCall p pr ∈ (runGate gate env req).calls →
      env.verify p pr = Except.error e →
      (runGate gate env req).outcome = Outcome.response 500
        { error := "Payment verification failed: " ++ e, accepts := none,
          x402Version := some 1 } ∧
      ∀ q qr, CallEvent.settleCall q qr ∉ (runGate gate env req).calls) ∧
    (∀ p pr v, CallEvent.verifyCall p pr ∈ (runGate gate env req).calls →
      env.verify p pr = Except.ok v → v.isValid = false →
      (runGate gate env req).outcome = Outcome.response 402
        { error := "Payment verification failed: " ++ v.invalidReason.getD "unknown reason",
          accepts := some [pr], x402Version := some 1 } ∧
      ∀ q qr, CallEvent.settleCall q qr ∉ (runGate gate env req).calls) := by
  rcases runGate_cases gate env req with ⟨hcalls, _⟩ |
    ⟨amount, p0, _, _, _, _, heq⟩
  · refine ⟨?_, ?_, ?_⟩
    · intro p pr hmem
      rw [hcalls] at hmem
      simp at hmem
    · intro p pr e hmem _
      rw [hcalls] at hmem
      simp at hmem
    · intro p pr v hmem _ _
      rw [hcalls] at hmem
      simp at hmem
  · rw [heq]
    refine ⟨?_, ?_, ?_⟩
    · intro p pr hmem
      have hargs := runVerifySettle_call_args env _ _ _ _ _ hmem
      have hpq : p = stampVersion p0 ∧
          pr = mkRequirements gate.network amount (resourceURLOf gate.resource req)
            gate.recipientAddress gate.tokenAddress := by
        rcases hargs with h1 | h1 <;> simp_all
      obtain ⟨hp, hpr⟩ := hpq
      subst hp
      subst hpr
      rcases runVerifySettle_calls env (stampVersion p0)
        (mkRequirements gate.network amount (resourceURLOf gate.resource req)
          gate.recipientAddress gate.tokenAddress) (capturedBody req.body) req.body with
        ⟨_, hnos⟩ | ⟨hc, v, hv, hvalid⟩
      · exact absurd hmem (hnos _ _)
      · exact ⟨v, hv, hvalid, hc⟩
    · intro p pr e hmem hv
      have hargs := runVerifySettle_call_args env _ _ _ _ _ hmem
      have hpq : p = stampVersion p0 ∧
          pr = mkRequirements gate.network amount (resourceURLOf gate.resource req)
            gate.recipientAddress gate.tokenAddress := by
        rcases hargs with h1 | h1 <;> simp_all
      obtain ⟨hp, hpr⟩ := hpq
      subst hp
      subst hpr
      rw [runVerifySettle_verify_error env _ _ _ _ e hv]
      constructor
      · rfl
      · intro q qr
        simp
    · intro p pr v hmem hv hvalid
      have hargs := runVerifySettle_call_args env _ _ _ _ _ hmem
      have hpq : p = stampVersion p0 ∧
          pr = mkRequirements gate.network amount (resourceURLOf gate.resource req)
            gate.recipientAddress gate.tokenAddress := by
        rcases hargs with h1 | h1 <;> simp_all
      obtain ⟨hp, hpr⟩ := hpq
      subst hp
      subst hpr
      rw [runVerifySettle_invalid env _ _ _ _ v hv hvalid]
      constructor
      · rfl
      · intro q qr
        simp

/-- Claim C4: every requirements value the gate constructs carries the
override amount when the `"signpay:amount"` context key holds a string,
and the configured `tokenAmount` when the key is absent; and when the
resolved amount is empty the request is answered 500 with the message
naming the missing amount configuration, before any facilitator call. -/
theorem amount_override_precedence (gate : Gate) (env : Env) (req : Request) :
    (∀ s, req.amountOverride = some (CtxVal.str s) →
      ∀ R ∈ requirementsOf (runGate gate env req), R.maxAmountRequired = s) ∧
    (req.amountOverride = none →
      ∀ R ∈ requirementsOf (runGate gate env req), R.maxAmountRequired = gate.tokenAmount) ∧
    (req.body ≠ BodyState.readError →
      resolveAmount gate.tokenAmount req.amountOverride = some "" →
      (runGate gate env req).outcome = Outcome.response 500
        { error := amountNotConfiguredMsg, accepts := none, x402Version := some 1 } ∧
      (runGate gate env req).calls = []) := by
  refine ⟨?_, ?_, ?_⟩
  · intro s hs R hR
    have h := runGate_requirements gate env req R hR
    rw [h]
    simp [mkRequirements, resolveAmount, hs]
  · intro hs R hR
    have h := runGate_requirements gate env req R hR
    rw [h]
    simp [mkRequirements, resolveAmount, hs]
  · intro hb ha
    rw [runGate_eq_afterBody gate env req hb]
    unfold runGateAfterBody
    rw [ha]
    simp [x402Version]

/-- The post-body pipeline never produces the body-read-failure response
(all its abort bodies carry `x402Version`, which that response omits)
(shared helper). -/
theorem runGateAfterBody_no_body_read_400 (gate : Gate) (env : Env) (req : Request)
    (rb : List Nat) (restored : BodyState) :
    (runGateAfterBody gate env req rb restored).outcome ≠ Outcome.response 400
      { error := "Failed to read request body", accepts := none, x402Version := none } := by
  unfold runGateAfterBody runVerifySettle
  repeat' split
  all_goals simp [x402Version]

/-- Claim C7: the restored body stream holds exactly the original bytes (the
capture/restore round-trip), which are also the bytes handed to the
downstream handler; an empty body is accepted without a body-read error
(and captures empty content, the `bs = []` case of the first part); a
body-stream read error aborts with 400 before any further step. -/
theorem body_capture_roundtrip (gate : Gate) (env : Env) (req : Request) :
    (∀ bs, req.body = BodyState.bytes bs →
      (runGate gate env req).restoredBody = BodyState.bytes bs ∧
      ∀ h d, (runGate gate env req).outcome = Outcome.success h d → d.requestBody = bs) ∧
    (req.body = BodyState.bytes [] →
      (runGate gate env req).outcome ≠ Outcome.response 400
        { error := "Failed to read request body", accepts := none, x402Version := none }) ∧
    (req.body = BodyState.readError →
      runGate gate env req =
        { outcome := Outcome.response 400
            { error := "Failed to read request body", accepts := none, x402Version := none },
          calls := [], restoredBody := BodyState.readError }) := by
  refine ⟨?_, ?_, ?_⟩
  · intro bs hbs
    have hb : req.body ≠ BodyState.readError := by
      rw [hbs]
      simp
    constructor
    · rw [runGate_eq_afterBody gate env req hb, runGateAfterBody_restoredBody]
      exact hbs
    · intro h d hd
      rcases runGate_cases gate env req with ⟨_, hnosucc⟩ | ⟨amount, p0, _, _, _, _, heq⟩
      · exact absurd hd (hnosucc h d)
      · rw [heq] at hd
        obtain ⟨_, _, _, _, _, _, hbody, _⟩ :=
          runVerifySettle_success_data env _ _ _ _ h d hd
        rw [hbody, hbs]
        rfl
  · intro hbs
    have hb : req.body ≠ BodyState.readError := by
      rw [hbs]
      simp
    rw [runGate_eq_afterBody gate env req hb]
    exact runGateAfterBody_no_body_read_400 gate env req _ _
  · intro hbs
    unfold runGate
    rw [hbs]

/-- Claim C8: construction succeeds — resolving the documented network
name — exactly for the chain IDs in `chainIDToNetwork` (84532 resolving
to `"base-sepolia"`), fails fatally for every other chain ID, and every
requirements value a constructed gate builds carries that network name. -/
theorem chain_network_construction (tokenAddress tokenAmount recipientAddress resource : String) :
    (∀ chainId n, chainIDToNetwork chainId = some n →
      SignPayMiddleware chainId tokenAddress tokenAmount recipientAddress resource =
        some { network := n, tokenAddress := tokenAddress, tokenAmount := tokenAmount,
               recipientAddress := recipientAddress, resource := resource }) ∧
    chainIDToNetwork 84532 = some "base-sepolia" ∧
    (∀ chainId, chainIDToNetwork chainId = none →
      SignPayMiddleware chainId tokenAddress tokenAmount recipientAddress resource = none) ∧
    (∀ chainId g,
      SignPayMiddleware chainId tokenAddress tokenAmount recipientAddress resource = some g →
      chainIDToNetwork chainId = some g.network ∧
      ∀ env req, ∀ R ∈ requirementsOf (runGate g env req), R.network = g.network) := by
  refine ⟨?_, ?_, ?_, ?_⟩
  · intro chainId n h
    unfold SignPayMiddleware
    rw [h]
  · rfl
  · intro chainId h
    unfold SignPayMiddleware
    rw [h]
  · intro chainId g h
    unfold SignPayMiddleware at h
    cases hn : chainIDToNetwork chainId with
    | none =>
      rw [hn] at h
      simp at h
    | some n =>
      rw [hn] at h
      simp only [Option.some.injEq] at h
      subst h
      constructor
      · rfl
      · intro env req R hR
        have hrq := runGate_requirements _ env req R hR
        rw [hrq]
        simp [mkRequirements]

/-- Claim C9: `GetPaymentData` on a context in which the key was never set
type-asserts a nil interface value and panics; when the key is set it
returns the stored data. -/
theorem get_payment_data_panics_when_unset :
    GetPaymentData none = GetResult.panics ∧
    ∀ d, GetPaymentData (some d) = GetResult.ok d :=
  ⟨rfl, fun _ => rfl⟩

/-- Claim C10: the `"signpay:amount"` override is used unvalidated — a
present non-string value makes the per-request handler panic on the
unchecked type assertion, and a present empty-string value suppresses a
non-empty configured amount, producing the 500 missing-amount response. -/
theorem amount_override_unvalidated (gate : Gate) (env : Env) (req : Request)
    (hb : req.body ≠ BodyState.readError) :
    (req.amountOverride = some CtxVal.nonStr →
      (runGate gate env req).outcome = Outcome.panicked) ∧
    (req.amountOverride = some (CtxVal.str "") → gate.tokenAmount ≠ "" →
      (runGate gate env req).outcome = Outcome.response 500
        { error := amountNotConfiguredMsg, accepts := none, x402Version := some 1 } ∧
      (runGate gate env req).calls = []) := by
  rw [runGate_eq_afterBody gate env req hb]
  unfold runGateAfterBody
  constructor
  · intro hov
    simp [resolveAmount, hov]
  · intro hov _
    simp [resolveAmount, hov, x402Version]

/-- Witness for claim C1 at a concrete gate, environment and request. -/
theorem payment_data_iff_verify_and_settle_witness :
    ∃ h d, (runGate sampleGate sampleEnv sampleReq).outcome = Outcome.success h d :=
  (payment_data_iff_verify_and_settle sampleGate sampleEnv sampleReq).1.mpr
    ⟨stampVersion samplePayload, samplePr, sampleVerifyOk, sampleSettleOk,
      by decide, rfl, rfl, by decide, rfl, rfl⟩

/-- Witness for claim C2 at a concrete gate, environment and request. -/
theorem settle_only_after_valid_verify_witness :
    ∃ v, sampleEnv.verify (stampVersion samplePayload) samplePr = Except.ok v ∧
      v.isValid = true ∧
      (runGate sampleGate sampleEnv sampleReq).calls =
        [CallEvent.verifyCall (stampVersion samplePayload) samplePr,
         CallEvent.settleCall (stampVersion samplePayload) samplePr] :=
  (settle_only_after_valid_verify sampleGate sampleEnv sampleReq).1
    (stampVersion samplePayload) samplePr (by decide)

/-- Witness for claim C3 at a concrete gate, environment and request. -/
theorem missing_payment_header_402_witness :
    (runGate sampleGate sampleEnv sampleReqNoHeader).outcome = Outcome.response 402
      { error := "X-PAYMENT header is required",
        accepts := some [mkRequirements sampleGate.network "1000000"
          (resourceURLOf sampleGate.resource sampleReqNoHeader)
          sampleGate.recipientAddress sampleGate.tokenAddress],
        x402Version := some 1 } ∧
    (runGate sampleGate sampleEnv sampleReqNoHeader).calls = [] :=
  missing_payment_header_402 sampleGate sampleEnv sampleReqNoHeader "1000000"
    (by decide) rfl (by decide) rfl

/-- Witness for claim C4 at a concrete gate, environment and request. -/
theorem amount_override_precedence_witness :
    (mkRequirements "base-sepolia" "500" "http://example.com/buy" "0xRecipient"
      "0xToken").maxAmountRequired = "500" :=
  (amount_override_precedence sampleGate sampleEnv sampleReqOverride).1 "500" rfl
    (mkRequirements "base-sepolia" "500" "http://example.com/buy" "0xRecipient" "0xToken")
    (by decide)

/-- Witness for claim C5 at a concrete gate, environment and request. -/
theorem malformed_payload_400_witness :
    (runGate sampleGate sampleEnvDecodeErr sampleReq).outcome = Outcome.response 400
      { error := "Invalid payment payload: " ++ "illegal base64 data", accepts := none,
        x402Version := some 1 } ∧
    (runGate sampleGate sampleEnvDecodeErr sampleReq).calls = [] :=
  malformed_payload_400 sampleGate sampleEnvDecodeErr sampleReq "1000000"
    "illegal base64 data" (by decide) rfl (by decide) (by decide) rfl

/-- Witness for claim C6 at a concrete gate, environment and request. -/
theorem verify_invalid_402_witness :
    (runGate sampleGate sampleEnvInvalid sampleReq).outcome = Outcome.response 402
      { error := "Payment verification failed: " ++ "insufficient_funds",
        accepts := some [mkRequirements sampleGate.network "1000000"
          (resourceURLOf sampleGate.resource sampleReq)
          sampleGate.recipientAddress sampleGate.tokenAddress],
        x402Version := some 1 } :=
  (verify_invalid_402 sampleGate sampleEnvInvalid sampleReq "1000000" samplePayload
    { isValid := false, invalidReason := some "insufficient_funds" }
    (by decide) rfl (by decide) (by decide) rfl rfl rfl).1 "insufficient_funds" rfl

/-- Witness for claim C7 at a concrete gate, environment and request. -/
theorem body_capture_roundtrip_witness :
    runGate sampleGate sampleEnv sampleReqBadBody =
      { outcome := Outcome.response 400
          { error := "Failed to read request body", accepts := none, x402Version := none },
        calls := [], restoredBody := BodyState.readError } :=
  (body_capture_roundtrip sampleGate sampleEnv sampleReqBadBody).2.2 rfl

/-- Witness for claim C8 at a concrete chain ID and configuration. -/
theorem chain_network_construction_witness :
    SignPayMiddleware 84532 "0xToken" "1000000" "0xRecipient" "" =
      some { network := "base-sepolia", tokenAddress := "0xToken",
             tokenAmount := "1000000", recipientAddress := "0xRecipient",
             resource := "" } :=
  (chain_network_construction "0xToken" "1000000" "0xRecipient" "").1 84532
    "base-sepolia" rfl

/-- Witness for claim C10 at a concrete gate, environment and requests. -/
theorem amount_override_unvalidated_witness :
    (runGate sampleGate sampleEnv sampleReqNonStr).outcome = Outcome.panicked ∧
    ((runGate sampleGate sampleEnv sampleReqEmptyOverride).outcome = Outcome.response 500
      { error := amountNotConfiguredMsg, accepts := none, x402Version := some 1 } ∧
     (runGate sampleGate sampleEnv sampleReqEmptyOverride).calls = []) :=
  ⟨(amount_override_unvalidated sampleGate sampleEnv sampleReqNonStr (by decide)).1 rfl,
   (amount_override_unvalidated sampleGate sampleEnv sampleReqEmptyOverride
     (by decide)).2 rfl (by decide)⟩

end SignPay
